import Mathlib

/-!
Shallow embedding of `src/app/page.tsx` (the single "StatusPanel" component).

The two stateful operations, `checkCodespaceStatus` (the spec's StatusChecker)
and `startCodespace` (the spec's Starter), are embedded as pure state
transformers.  React `useState` setters are modelled as functional updates of an
explicit `PanelState` record; the network (`fetch`) is modelled by an oracle
supplying the outcome of each request; every suspension point (network request,
`setTimeout` sleep, inner status-check invocation) is recorded in an event
trace, paired with the panel state at the moment the event is issued.  This
makes "no network call", "flag is true throughout", and the poll-loop bounds
directly statable.

Closure-capture semantics: in the source, `startCodespace` is a closure created
at render time, so its reads of the `status` and `codespaceId` constants
(source lines 145 and 149) see the values captured at the invoking render, and
the `useState` setters cannot change them within the running invocation (the
stale-closure behavior of React function components).  The embedding therefore
passes the captured `status0` and `id0` into the poll loop as constants, while
the setters keep updating the threaded `PanelState` store that the inner status
checks and later renders observe.  In particular the loop's exit test at source
line 145 compares the captured status, not the status freshly written by
`checkCodespaceStatus`.

Statuses are strings because the source assigns the raw API lifecycle state to
the status variable (`setStatus(codespace.state as CodespaceStatus)`), so values
outside the local tag set can flow through.
-/

/-- Mirror of the `Repository` interface of the source. -/
structure Repository where
  name : String
  full_name : String
  deriving DecidableEq, Repr

/-- Mirror of the `Codespace` interface of the source. -/
structure Codespace where
  id : String
  name : String
  state : String
  repository : Repository
  deriving DecidableEq, Repr

/-- The component state: the five `useState` hooks of the source. -/
structure PanelState where
  status : String
  codespaceUrl : String
  isStarting : Bool
  isLoading : Bool
  codespaceId : String
  deriving DecidableEq, Repr

/-- `const FLASK_PORT = 8080;` -/
def FLASK_PORT : Nat := 8080

/-- `const REPO_NAME = 'Fake-Text-Story';` -/
def REPO_NAME : String := "Fake-Text-Story"

/-- Outcome of the `GET /user/codespaces` request: parsed list on success,
a non-ok HTTP response, or a thrown fault (network error or JSON error). -/
inductive ListResult where
  | ok (codespaces : List Codespace)
  | httpError
  | fault
  deriving DecidableEq, Repr

/-- Outcome of a single auxiliary request (health probe, start POST, console
POST): ok response, non-ok response, or a thrown network fault. -/
inductive ReqResult where
  | ok
  | notOk
  | fault
  deriving DecidableEq, Repr

/-- Network outcomes consumed by one `checkCodespaceStatus` invocation. -/
structure CheckNet where
  list : ListResult
  probe : ReqResult
  deriving Repr

/-- Network-level events of one `checkCodespaceStatus` invocation. -/
inductive NetEv where
  | listCodespaces
  | healthProbe (url : String)
  deriving DecidableEq, Repr

/-- JavaScript truthiness of the `GITHUB_TOKEN` configuration value:
`!GITHUB_TOKEN` is true when the variable is undefined or the empty string. -/
def tokenFalsy : Option String → Bool
  | none => true
  | some t => t == ""

/-- The URL derived at line 81 of the source:
`https://{codespace.name}-{FLASK_PORT}.app.github.dev`. -/
def derivedUrl (name : String) : String :=
  "https://" ++ name ++ "-" ++ toString FLASK_PORT ++ ".app.github.dev"

/-- Embedding of `checkCodespaceStatus` (source lines 39-108).  Returns the
final panel state and the trace of network events, each paired with the panel
state at the moment the request is issued. -/
def checkCodespaceStatus (token : Option String) (net : CheckNet) (s : PanelState) :
    PanelState × List (NetEv × PanelState) :=
  let s0 := { s with isLoading := true }
  if tokenFalsy token then
    ({ s0 with status := "no_token", isLoading := false }, [])
  else
    match net.list with
    | ListResult.fault =>
        ({ s0 with status := "error", isLoading := false }, [(NetEv.listCodespaces, s0)])
    | ListResult.httpError =>
        ({ s0 with status := "error", isLoading := false }, [(NetEv.listCodespaces, s0)])
    | ListResult.ok codespaces =>
        match codespaces.find? (fun cs => cs.repository.name == REPO_NAME) with
        | none =>
            ({ s0 with status := "not_found", isLoading := false }, [(NetEv.listCodespaces, s0)])
        | some codespace =>
            let s1 := { s0 with codespaceId := codespace.id }
            if codespace.state == "running" then
              let url := derivedUrl codespace.name
              let s2 := { s1 with codespaceUrl := url }
              match net.probe with
              | ReqResult.ok =>
                  ({ s2 with status := "running", isLoading := false },
                   [(NetEv.listCodespaces, s0), (NetEv.healthProbe url, s2)])
              | ReqResult.notOk =>
                  ({ s2 with status := "app_not_running", isLoading := false },
                   [(NetEv.listCodespaces, s0), (NetEv.healthProbe url, s2)])
              | ReqResult.fault =>
                  ({ s2 with status := "app_not_running", isLoading := false },
                   [(NetEv.listCodespaces, s0), (NetEv.healthProbe url, s2)])
            else
              ({ s1 with status := codespace.state, isLoading := false },
               [(NetEv.listCodespaces, s0)])

/-- Events of one `startCodespace` invocation. -/
inductive Event where
  | net (e : NetEv)
  | sleep (ms : Nat)
  | checkInvoked
  | startRequest (id : String)
  | consoleRequest (id : String)
  deriving DecidableEq, Repr

/-- Network outcomes consumed by one `startCodespace` invocation: the shared
token, the start POST outcome, the outcomes of each poll-loop status check, and
the console POST outcome. -/
structure StartOracle where
  token : Option String
  startReq : ReqResult
  checks : Nat → CheckNet
  consoleReq : ReqResult

/-- Lift the inner events of a status check into the Starter event type. -/
def netify (l : List (NetEv × PanelState)) : List (Event × PanelState) :=
  l.map (fun p => (Event.net p.1, p.2))

/-- Result of the `while (attempts < 30)` poll loop. -/
structure LoopResult where
  state : PanelState
  trace : List (Event × PanelState)
  attempts : Nat
  broke : Bool
  deriving Repr

/-- Embedding of the poll loop (source lines 139-171).  `status0` and `id0` are
the render-captured `status` and `codespaceId` constants the closure reads at
lines 145 and 149: they never change during the invocation, because the
`useState` setters only affect the store (threaded here as `s`), not the
captured constants.  `fuel` is the number of remaining iterations (the loop
runs while `attempts < 30`, so it is entered with `fuel = 30`, `attempts = 0`
and the invariant `attempts + fuel = 30`).  Each iteration sleeps 2000 ms,
invokes `checkCodespaceStatus`, then tests the captured `status0` against
`running`; on success it issues the console request for `id0` and breaks. -/
def pollLoopAux (o : StartOracle) (status0 id0 : String) :
    Nat → Nat → PanelState → LoopResult
  | 0, attempts, s => ⟨s, [], attempts, false⟩
  | fuel + 1, attempts, s =>
      let c := checkCodespaceStatus o.token (o.checks attempts) s
      let pre : List (Event × PanelState) :=
        (Event.sleep 2000, s) :: (Event.checkInvoked, s) :: netify c.2
      if status0 == "running" then
        ⟨c.1, pre ++ [(Event.consoleRequest id0, c.1)], attempts, true⟩
      else
        let r := pollLoopAux o status0 id0 fuel (attempts + 1) c.1
        ⟨r.state, pre ++ r.trace, r.attempts, r.broke⟩

/-- Embedding of `startCodespace` (source lines 110-183).  The guard
`!codespaceId || !GITHUB_TOKEN` throws before `setIsStarting(true)`; any thrown
error is caught and sets status `error`; the `finally` block always sets the
starting flag to false.  The poll loop receives the render-captured `status`
and `codespaceId` values (the state at invocation time).  The console request's
non-ok response is only logged (status unchanged), while a thrown console fault
propagates to the catch. -/
def startCodespace (o : StartOracle) (s : PanelState) :
    PanelState × List (Event × PanelState) :=
  if s.codespaceId == "" || tokenFalsy o.token then
    ({ s with status := "error", isStarting := false }, [])
  else
    let s1 := { s with isStarting := true }
    match o.startReq with
    | ReqResult.notOk =>
        ({ s1 with status := "error", isStarting := false },
         [(Event.startRequest s.codespaceId, s1)])
    | ReqResult.fault =>
        ({ s1 with status := "error", isStarting := false },
         [(Event.startRequest s.codespaceId, s1)])
    | ReqResult.ok =>
        let r := pollLoopAux o s.status s.codespaceId 30 0 s1
        let tr := (Event.startRequest s.codespaceId, s1) :: r.trace
        if r.broke then
          match o.consoleReq with
          | ReqResult.fault =>
              ({ r.state with status := "error", isStarting := false }, tr)
          | ReqResult.ok => ({ r.state with isStarting := false }, tr)
          | ReqResult.notOk => ({ r.state with isStarting := false }, tr)
        else
          if r.attempts ≥ 30 then
            ({ r.state with status := "error", isStarting := false }, tr)
          else
            ({ r.state with isStarting := false }, tr)

/-- Is this event the 2000 ms suspension? -/
def isSleepB : Event → Bool
  | Event.sleep _ => true
  | _ => false

/-- Is this event an invocation of the status checker? -/
def isCheckB : Event → Bool
  | Event.checkInvoked => true
  | _ => false

/-- Is this event the console launch request? -/
def isConsoleB : Event → Bool
  | Event.consoleRequest _ => true
  | _ => false

/-- Number of sleep suspensions in a Starter trace. -/
def sleepCount (tr : List (Event × PanelState)) : Nat :=
  tr.countP (fun p => isSleepB p.1)

/-- Number of status-check invocations in a Starter trace. -/
def checkCount (tr : List (Event × PanelState)) : Nat :=
  tr.countP (fun p => isCheckB p.1)

/-- Number of console launch requests in a Starter trace. -/
def consoleCount (tr : List (Event × PanelState)) : Nat :=
  tr.countP (fun p => isConsoleB p.1)

/-- Classifier for the health-probe event. -/
def isProbeB : NetEv → Bool
  | NetEv.healthProbe _ => true
  | _ => false

/-- Fixture: the panel state right after mount. -/
def sInit : PanelState :=
  { status := "checking", codespaceUrl := "", isStarting := false,
    isLoading := true, codespaceId := "" }

/-- Fixture: a sandbox of some other repository. -/
def csOther : Codespace :=
  { id := "id0", name := "othercs", state := "running",
    repository := { name := "Other-Repo", full_name := "me/Other-Repo" } }

/-- Fixture: the target sandbox in lifecycle state `running`. -/
def csRun : Codespace :=
  { id := "id1", name := "mycs", state := "running",
    repository := { name := "Fake-Text-Story", full_name := "me/Fake-Text-Story" } }

/-- Fixture: the target sandbox in a lifecycle state outside the local tag set. -/
def csRaw : Codespace :=
  { id := "id2", name := "mycs", state := "shutting_down",
    repository := { name := "Fake-Text-Story", full_name := "me/Fake-Text-Story" } }

/-- Fixture: a panel state with a recorded sandbox id, in status `stopped`
(one of the states in which the start button is rendered). -/
def sReady : PanelState :=
  { status := "stopped", codespaceUrl := "", isStarting := false,
    isLoading := false, codespaceId := "id1" }

/-- Fixture: a Starter oracle whose status checks never observe `running`
(every list request answers with a non-ok HTTP response). -/
def oTimeout : StartOracle :=
  { token := some "tok", startReq := ReqResult.ok,
    checks := fun _ => ⟨ListResult.httpError, ReqResult.ok⟩,
    consoleReq := ReqResult.ok }

/-- Fixture: a Starter oracle whose every status check finds the target sandbox
in lifecycle state `running` with a passing health probe, so each check itself
computes status `running`. -/
def oHealthy : StartOracle :=
  { token := some "tok", startReq := ReqResult.ok,
    checks := fun _ => ⟨ListResult.ok [csRun], ReqResult.ok⟩,
    consoleReq := ReqResult.ok }

/-- The URL built at source line 81 spelled out:
`https://{name}-8080.app.github.dev`. -/
theorem derivedUrl_eq (name : String) :
    derivedUrl name = "https://" ++ name ++ "-8080.app.github.dev" := by
  unfold derivedUrl
  have h : toString FLASK_PORT = "8080" := rfl
  rw [h, String.append_assoc, String.append_assoc]
  rfl

/-- `List.find?` returns the first match: a prefix with no match is skipped. -/
theorem find_first_append (p : Codespace → Bool) (lpre lpost : List Codespace)
    (cs : Codespace) (hpre : lpre.all (fun c => !p c) = true) (hcs : p cs = true) :
    (lpre ++ cs :: lpost).find? p = some cs := by
  induction lpre with
  | nil => simp [List.find?_cons, hcs]
  | cons x rest ih =>
      simp only [List.all_cons, Bool.and_eq_true, Bool.not_eq_true'] at hpre
      simp [List.find?_cons, hpre.1, ih hpre.2]

/-- C4: with the credential absent, the status checker sets status `no_token`
and performs no network call, for every network oracle and starting state. -/
theorem checkStatus_no_token (net : CheckNet) (s : PanelState) :
    (checkCodespaceStatus none net s).1.status = "no_token" ∧
    (checkCodespaceStatus none net s).2 = [] := by
  unfold checkCodespaceStatus
  simp [tokenFalsy]

/-- C5: for a matched sandbox in lifecycle state `running` whose health probe
succeeds, the status checker sets status `running` and records the URL
`https://{name}-8080.app.github.dev` built from the sandbox name and the fixed
port 8080. -/
theorem checkStatus_running_health_ok (t : String) (l : List Codespace)
    (cs : Codespace) (s : PanelState)
    (ht : tokenFalsy (some t) = false)
    (hfind : l.find? (fun c => c.repository.name == REPO_NAME) = some cs)
    (hstate : cs.state = "running") :
    (checkCodespaceStatus (some t) ⟨ListResult.ok l, ReqResult.ok⟩ s).1.status = "running" ∧
    (checkCodespaceStatus (some t) ⟨ListResult.ok l, ReqResult.ok⟩ s).1.codespaceUrl =
      "https://" ++ cs.name ++ "-8080.app.github.dev" := by
  unfold checkCodespaceStatus
  simp [ht, hfind, hstate, derivedUrl_eq]

theorem checkStatus_running_health_ok_witness :
    tokenFalsy (some "tok") = false ∧
    [csOther, csRun].find? (fun c => c.repository.name == REPO_NAME) = some csRun ∧
    csRun.state = "running" ∧
    ((checkCodespaceStatus (some "tok") ⟨ListResult.ok [csOther, csRun], ReqResult.ok⟩ sInit).1.status = "running" ∧
     (checkCodespaceStatus (some "tok") ⟨ListResult.ok [csOther, csRun], ReqResult.ok⟩ sInit).1.codespaceUrl =
       "https://" ++ csRun.name ++ "-8080.app.github.dev") :=
  ⟨by decide, by decide, rfl,
   checkStatus_running_health_ok "tok" [csOther, csRun] csRun sInit (by decide) (by decide) rfl⟩

/-- C6: for a matched sandbox in lifecycle state `running` whose health probe
returns a non-ok response or throws, the status checker sets status
`app_not_running`, not `error`. -/
theorem checkStatus_probe_failure (t : String) (l : List Codespace)
    (cs : Codespace) (s : PanelState) (probe : ReqResult)
    (ht : tokenFalsy (some t) = false)
    (hfind : l.find? (fun c => c.repository.name == REPO_NAME) = some cs)
    (hstate : cs.state = "running")
    (hp : (probe == ReqResult.ok) = false) :
    (checkCodespaceStatus (some t) ⟨ListResult.ok l, probe⟩ s).1.status = "app_not_running" := by
  unfold checkCodespaceStatus
  cases probe <;> simp_all [ht, hfind, hstate]

theorem checkStatus_probe_failure_witness :
    tokenFalsy (some "tok") = false ∧
    [csOther, csRun].find? (fun c => c.repository.name == REPO_NAME) = some csRun ∧
    csRun.state = "running" ∧
    (ReqResult.fault == ReqResult.ok) = false ∧
    (checkCodespaceStatus (some "tok") ⟨ListResult.ok [csOther, csRun], ReqResult.fault⟩ sInit).1.status =
      "app_not_running" :=
  ⟨by decide, by decide, rfl, by decide,
   checkStatus_probe_failure "tok" [csOther, csRun] csRun sInit ReqResult.fault
     (by decide) (by decide) rfl (by decide)⟩

/-- C7: for a matched sandbox in any lifecycle state other than `running`, the
status checker copies the raw lifecycle state verbatim into the status, with no
coercion to the local tag set. -/
theorem checkStatus_raw_passthrough (t : String) (l : List Codespace)
    (cs : Codespace) (s : PanelState) (probe : ReqResult)
    (ht : tokenFalsy (some t) = false)
    (hfind : l.find? (fun c => c.repository.name == REPO_NAME) = some cs)
    (hstate : (cs.state == "running") = false) :
    (checkCodespaceStatus (some t) ⟨ListResult.ok l, probe⟩ s).1.status = cs.state := by
  unfold checkCodespaceStatus
  simp [ht, hfind, hstate]

theorem checkStatus_raw_passthrough_witness :
    tokenFalsy (some "tok") = false ∧
    [csOther, csRaw].find? (fun c => c.repository.name == REPO_NAME) = some csRaw ∧
    (csRaw.state == "running") = false ∧
    (checkCodespaceStatus (some "tok") ⟨ListResult.ok [csOther, csRaw], ReqResult.ok⟩ sInit).1.status =
      csRaw.state :=
  ⟨by decide, by decide, by decide,
   checkStatus_raw_passthrough "tok" [csOther, csRaw] csRaw sInit ReqResult.ok
     (by decide) (by decide) (by decide)⟩

/-- C8: the status checker selects the first list element whose repository name
equals the fixed target; with no matching element the status is `not_found`;
on a match the sandbox id is recorded whatever the later branches do (the
lifecycle state of the match and the probe outcome are arbitrary here). -/
theorem checkStatus_first_match (t : String) (probe : ReqResult) (s : PanelState)
    (lpre lpost : List Codespace) (cs : Codespace)
    (ht : tokenFalsy (some t) = false)
    (hpre : lpre.all (fun c => !(c.repository.name == REPO_NAME)) = true)
    (hcs : cs.repository.name = REPO_NAME) :
    (checkCodespaceStatus (some t) ⟨ListResult.ok (lpre ++ cs :: lpost), probe⟩ s).1.codespaceId = cs.id ∧
    (checkCodespaceStatus (some t) ⟨ListResult.ok lpre, probe⟩ s).1.status = "not_found" := by
  have hfind : (lpre ++ cs :: lpost).find? (fun c => c.repository.name == REPO_NAME) = some cs :=
    find_first_append _ lpre lpost cs hpre (by simp [hcs])
  have hnone : lpre.find? (fun c => c.repository.name == REPO_NAME) = none := by
    rw [List.find?_eq_none]
    intro x hx
    have := (List.all_eq_true.mp hpre) x hx
    simpa using this
  constructor
  · unfold checkCodespaceStatus
    simp only [ht, hfind]
    cases probe <;> repeat' split
    all_goals simp_all
  · unfold checkCodespaceStatus
    simp [ht, hnone]

theorem checkStatus_first_match_witness :
    tokenFalsy (some "tok") = false ∧
    [csOther].all (fun c => !(c.repository.name == REPO_NAME)) = true ∧
    csRaw.repository.name = REPO_NAME ∧
    ((checkCodespaceStatus (some "tok") ⟨ListResult.ok ([csOther] ++ csRaw :: [csRun]), ReqResult.ok⟩ sInit).1.codespaceId = csRaw.id ∧
     (checkCodespaceStatus (some "tok") ⟨ListResult.ok [csOther], ReqResult.ok⟩ sInit).1.status = "not_found") :=
  ⟨by decide, by decide, rfl,
   checkStatus_first_match "tok" ReqResult.ok sInit [csOther] [csRun] csRaw
     (by decide) (by decide) rfl⟩

/-- C9: for a matched sandbox in lifecycle state `running`, the derived URL is
recorded before the health probe is issued: for every probe outcome the final
state holds the derived URL, and the probe event itself is issued from a state
that already holds it. -/
theorem checkStatus_url_before_probe (t : String) (l : List Codespace)
    (cs : Codespace) (s : PanelState) (probe : ReqResult)
    (ht : tokenFalsy (some t) = false)
    (hfind : l.find? (fun c => c.repository.name == REPO_NAME) = some cs)
    (hstate : cs.state = "running") :
    (checkCodespaceStatus (some t) ⟨ListResult.ok l, probe⟩ s).1.codespaceUrl = derivedUrl cs.name ∧
    (checkCodespaceStatus (some t) ⟨ListResult.ok l, probe⟩ s).2.all
      (fun p => !isProbeB p.1 || (p.2.codespaceUrl == derivedUrl cs.name)) = true := by
  unfold checkCodespaceStatus
  cases probe <;> simp_all [ht, hfind, hstate, isProbeB]

theorem checkStatus_url_before_probe_witness :
    tokenFalsy (some "tok") = false ∧
    [csOther, csRun].find? (fun c => c.repository.name == REPO_NAME) = some csRun ∧
    csRun.state = "running" ∧
    ((checkCodespaceStatus (some "tok") ⟨ListResult.ok [csOther, csRun], ReqResult.fault⟩ sInit).1.codespaceUrl = derivedUrl csRun.name ∧
     (checkCodespaceStatus (some "tok") ⟨ListResult.ok [csOther, csRun], ReqResult.fault⟩ sInit).2.all
       (fun p => !isProbeB p.1 || (p.2.codespaceUrl == derivedUrl csRun.name)) = true) :=
  ⟨by decide, by decide, rfl,
   checkStatus_url_before_probe "tok" [csOther, csRun] csRun sInit ReqResult.fault
     (by decide) (by decide) rfl⟩

/-- C10: every status-checker invocation leaves the loading flag false on every
exit path, and every network request it issues is made while the flag is
true. -/
theorem checkStatus_isLoading_spec (token : Option String) (net : CheckNet) (s : PanelState) :
    (checkCodespaceStatus token net s).1.isLoading = false ∧
    (checkCodespaceStatus token net s).2.all (fun p => p.2.isLoading) = true := by
  unfold checkCodespaceStatus
  repeat' split
  all_goals simp

/-- The status checker never touches the starting flag. -/
theorem checkStatus_isStarting_final (token : Option String) (net : CheckNet) (s : PanelState) :
    (checkCodespaceStatus token net s).1.isStarting = s.isStarting := by
  unfold checkCodespaceStatus
  repeat' split
  all_goals simp

/-- Every event of a status check is issued from a state with the same starting
flag as on entry. -/
theorem checkStatus_isStarting_all (token : Option String) (net : CheckNet) (s : PanelState) :
    (checkCodespaceStatus token net s).2.all (fun p => p.2.isStarting == s.isStarting) = true := by
  unfold checkCodespaceStatus
  repeat' split
  all_goals simp

/-- Pointwise form of `checkStatus_isStarting_all`. -/
theorem checkStatus_isStarting_mem (token : Option String) (net : CheckNet) (s : PanelState)
    (q : NetEv × PanelState) (hq : q ∈ (checkCodespaceStatus token net s).2) :
    q.2.isStarting = s.isStarting := by
  have h := checkStatus_isStarting_all token net s
  rw [List.all_eq_true] at h
  simpa using h q hq

/-- Every event of the poll loop is issued from a state with the same starting
flag as on loop entry. -/
theorem pollLoopAux_isStarting_mem (o : StartOracle) (status0 id0 : String)
    (fuel attempts : Nat) (s : PanelState)
    (p : Event × PanelState) (hp : p ∈ (pollLoopAux o status0 id0 fuel attempts s).trace) :
    p.2.isStarting = s.isStarting := by
  induction fuel generalizing attempts s with
  | zero => simp [pollLoopAux] at hp
  | succ n ih =>
      by_cases hc : (status0 == "running") = true
      · simp only [pollLoopAux, hc, if_pos, List.cons_append, List.mem_append, List.mem_cons,
                   List.mem_singleton, List.not_mem_nil, or_false] at hp
        rcases hp with rfl | rfl | h | rfl
        · rfl
        · rfl
        · rcases List.mem_map.mp h with ⟨x, hx, rfl⟩
          exact checkStatus_isStarting_mem o.token (o.checks attempts) s x hx
        · exact checkStatus_isStarting_final o.token (o.checks attempts) s
      · simp only [pollLoopAux, hc, Bool.false_eq_true, if_false,
                   List.cons_append, List.mem_cons, List.mem_append] at hp
        rcases hp with rfl | rfl | h | h
        · rfl
        · rfl
        · rcases List.mem_map.mp h with ⟨x, hx, rfl⟩
          exact checkStatus_isStarting_mem o.token (o.checks attempts) s x hx
        · rw [ih (attempts + 1) (checkCodespaceStatus o.token (o.checks attempts) s).1 h]
          exact checkStatus_isStarting_final o.token (o.checks attempts) s

/-- C2: the starting flag is false immediately after every Starter invocation,
and every suspension or request during the invocation happens while the flag is
true, on the success path and on every failure path. -/
theorem startCodespace_isStarting_spec (o : StartOracle) (s : PanelState) :
    (startCodespace o s).1.isStarting = false ∧
    (startCodespace o s).2.all (fun p => p.2.isStarting) = true := by
  have halltr : ((Event.startRequest s.codespaceId, { s with isStarting := true }) ::
      (pollLoopAux o s.status s.codespaceId 30 0 { s with isStarting := true }).trace).all
        (fun p => p.2.isStarting) = true := by
    rw [List.all_eq_true]
    intro p hp
    rcases List.mem_cons.mp hp with rfl | h
    · rfl
    · exact pollLoopAux_isStarting_mem o s.status s.codespaceId 30 0
        { s with isStarting := true } p h
  simp only [startCodespace]
  repeat' split
  all_goals first
    | exact ⟨rfl, halltr⟩
    | exact ⟨rfl, rfl⟩

/-- C3: invoking Starter with no recorded sandbox id sets status `error`
immediately and performs no suspension or network call at all. -/
theorem startCodespace_missing_id (o : StartOracle) (s : PanelState)
    (h : s.codespaceId = "") :
    (startCodespace o s).1.status = "error" ∧ (startCodespace o s).2 = [] := by
  unfold startCodespace
  simp [h]

theorem startCodespace_missing_id_witness :
    sInit.codespaceId = "" ∧
    ((startCodespace oTimeout sInit).1.status = "error" ∧
     (startCodespace oTimeout sInit).2 = []) :=
  ⟨rfl, startCodespace_missing_id oTimeout sInit rfl⟩

/-- C1: the claimed early exit does not happen on the code.  At an input where
the id and token are present, the start request is accepted, the Starter is
invoked from status `stopped` (a state in which the start button renders), and
every status check finds the target sandbox running with a passing health probe
(so the very first check computes status `running`, and from the second
iteration on even the stored status read by the checks is already `running`),
the loop still performs all 30 checks with their 30 suspensions, never issues
the console launch request, and ends with status `error` from the timeout:
source line 145 compares the render-captured `status` constant, which
`setStatus` cannot change within the invocation, so a check observing `running`
can never terminate the loop. -/
theorem startCodespace_stale_status_timeout :
    (checkCodespaceStatus oHealthy.token (oHealthy.checks 0) sReady).1.status = "running" ∧
    checkCount (startCodespace oHealthy sReady).2 = 30 ∧
    sleepCount (startCodespace oHealthy sReady).2 = 30 ∧
    (startCodespace oHealthy sReady).2.countP
      (fun p => isCheckB p.1 && (p.2.status == "running")) = 29 ∧
    consoleCount (startCodespace oHealthy sReady).2 = 0 ∧
    (startCodespace oHealthy sReady).1.status = "error" := by
  decide
